import Mathlib

/-
Verification of the LegalOps repository against its specification.

The repository is a Next.js frontend plus documentation for a FastAPI
backend.  Frontend components present in the tree
(MatterCard.tsx, ParallelViewer, app/drafting/page.tsx) are embedded
directly.  The backend pipeline stages (orchestrator, research, risk
scoring, translation, drafting, consistency QA) are not part of the
tree — only their type declarations, documentation and frontend callers
are — so those operations are modelled from the specification, with each
such definition marked `Modelled from the spec:` in its doc comment.
Numeric scores are embedded as rationals.
-/

namespace LegalOps

/-! ## Frontend: MatterCard.tsx -/

/-- Embedding of `getRiskColor` from src/frontend/components/MatterCard.tsx:
`if (score >= 4) return 'risk-high'; if (score >= 3) return 'risk-medium'; return 'risk-low'`. -/
def getRiskColor (score : ℚ) : String :=
  if score ≥ 4 then "risk-high"
  else if score ≥ 3 then "risk-medium"
  else "risk-low"

/-- Embedding of `getRiskLabel` from src/frontend/components/MatterCard.tsx:
`if (score >= 4) return 'High Risk'; if (score >= 3) return 'Medium Risk'; return 'Low Risk'`. -/
def getRiskLabel (score : ℚ) : String :=
  if score ≥ 4 then "High Risk"
  else if score ≥ 3 then "Medium Risk"
  else "Low Risk"

/-! ## Frontend: ParallelViewer (src/unnamed/part_009) -/

/-- Embedding of the `Segment` interface of the parallel-text viewer.
Optional fields of the TypeScript interface become `Option`. -/
structure ViewerSegment where
  segment_id : String
  doc_id : String
  page : Nat
  sequence : Nat
  text : String
  lang : String
  lang_confidence : Option ℚ
  ocr_confidence : Option ℚ
  human_check_required : Bool

/-- Embedding of the JavaScript expression `v || d` applied to a possibly
absent numeric field: an absent value and the falsy number 0 both give the
default. -/
def jsOrDefault (v : Option ℚ) (d : ℚ) : ℚ :=
  match v with
  | none => d
  | some c => if c = 0 then d else c

/-- Embedding of `seg.lang_confidence || 1.0` used both by the filter and by
the per-segment rendering in ParallelViewer. -/
def effectiveLangConfidence (seg : ViewerSegment) : ℚ :=
  jsOrDefault seg.lang_confidence 1

/-- Embedding of the `filteredSegments` predicate:
`(seg.lang_confidence || 1.0) >= confidenceFilter`. -/
def passesConfidenceFilter (seg : ViewerSegment) (confidenceFilter : ℚ) : Bool :=
  decide (confidenceFilter ≤ effectiveLangConfidence seg)

/-- Embedding of `getConfidenceColor` from ParallelViewer. -/
def getConfidenceColor (confidence : ℚ) : String :=
  if confidence ≥ 9/10 then "text-green-600"
  else if confidence ≥ 7/10 then "text-yellow-600"
  else "text-red-600"

/-- Embedding of the `bgColor` ternary chain used when rendering a segment
card in ParallelViewer. -/
def segmentBgColor (confidence : ℚ) : String :=
  if confidence ≥ 9/10 then "bg-green-50 border-green-200"
  else if confidence ≥ 7/10 then "bg-yellow-50 border-yellow-200"
  else "bg-red-50 border-red-200"

/-! ## Frontend: drafting page (src/frontend/app/drafting/page.tsx) and
    the API response types of src/frontend/lib/types.ts -/

/-- Embedding of the `qa_report` object shape of `DraftingWorkflowResult`
in src/frontend/lib/types.ts. -/
structure QAReport where
  block_for_human : Bool
  issues : List String

/-- Embedding of `PleadingDraft` from src/frontend/lib/types.ts. -/
structure TsPleadingDraft where
  pleading_ms_text : String
  pleading_en_text : Option String

/-- Embedding of `DraftingWorkflowResult` from src/frontend/lib/types.ts. -/
structure DraftingWorkflowResult where
  pleading_ms : Option TsPleadingDraft
  pleading_en : Option TsPleadingDraft
  qa_report : Option QAReport

/-- Embedding of the render condition of the success banner in
DraftingContent: the banner is emitted exactly when
`draftingMutation.data.workflow_result?.qa_report` is present. -/
def rendersQAPassedBanner (workflow_result : Option DraftingWorkflowResult) : Bool :=
  match workflow_result with
  | none => false
  | some r => r.qa_report.isSome

/-! ## Backend orchestrator (spec-modelled)

The FastAPI workflow orchestrator is not part of this tree; it is
modelled from §4.1 of the specification. -/

/-- Status of a whole workflow run. -/
inductive WorkflowStatus
  | pending
  | running
  | completed
  | failed
deriving DecidableEq, Repr

/-- Status recorded for a single executed stage. -/
inductive StageStat
  | completed
  | failed
deriving DecidableEq, Repr

/-- Record appended to the state for every executed stage. -/
structure StageResult where
  stage_name : String
  status : StageStat
deriving DecidableEq, Repr

/-- Modelled from the spec: a pipeline stage is a name together with a
fallible transform of the workflow payload; an `Except.error` is an
unrecoverable stage error (recoverable failures are substituted inside the
stage and therefore surface as `Except.ok`). -/
abbrev Stage (σ : Type) : Type := String × (σ → Except String σ)

/-- Modelled from the spec: the single record threaded through a pipeline
run, carrying the payload, the ordered stage results, the run status and
an optional error. -/
structure WorkflowState (σ : Type) where
  workflow_id : String
  matter_id : String
  data : σ
  stage_results : List StageResult
  status : WorkflowStatus
  error : Option String

/-- Modelled from the spec: execute the stages in order, threading the
state; on the first unrecoverable stage error, append a failed
StageResult, set `status := failed`, record the error, and stop without
executing any further stage.  When every stage succeeds, the run
completes. -/
def runStages {σ : Type} : List (Stage σ) → WorkflowState σ → WorkflowState σ
  | [], st => { st with status := WorkflowStatus.completed }
  | (nm, f) :: rest, st =>
    match f st.data with
    | Except.ok d =>
        runStages rest
          { st with data := d,
                    stage_results := st.stage_results ++ [⟨nm, StageStat.completed⟩] }
    | Except.error e =>
        { st with stage_results := st.stage_results ++ [⟨nm, StageStat.failed⟩],
                  status := WorkflowStatus.failed,
                  error := some e }

/-- Modelled from the spec: `run(workflow_type, initial_input)` — build the
initial state for the stage list of the workflow type and execute it. -/
def run {σ : Type} (stages : List (Stage σ)) (wid mid : String) (input : σ) :
    WorkflowState σ :=
  runStages stages
    { workflow_id := wid, matter_id := mid, data := input,
      stage_results := [], status := WorkflowStatus.running, error := none }

/-- True when every stage in the list succeeds on the payload produced by
its predecessors. -/
def stagesSucceed {σ : Type} : List (Stage σ) → σ → Bool
  | [], _ => true
  | (_, f) :: rest, d =>
    match f d with
    | Except.ok d2 => stagesSucceed rest d2
    | Except.error _ => false

/-- Payload obtained by applying a list of succeeding stages in order. -/
def applyStages {σ : Type} : List (Stage σ) → σ → σ
  | [], d => d
  | (_, f) :: rest, d =>
    match f d with
    | Except.ok d2 => applyStages rest d2
    | Except.error _ => d

/-! ## Backend research stage (spec-modelled)

The research agent (CommonLII scraper with retry and mock fallback) is
not part of this tree; it is modelled from §4.7 of the specification and
the shape of `CaseResult` in src/frontend/lib/types.ts. -/

/-- Provenance tag distinguishing live scraped data from the static
fallback corpus. -/
inductive Provenance
  | live
  | mock
deriving DecidableEq, Repr

/-- Case record returned by the research stage, shaped after `CaseResult`
in src/frontend/lib/types.ts plus the provenance tag of §3. -/
structure ResearchCase where
  citation : String
  title : String
  court : String
  year : Nat
  binding : Bool
  relevance_score : ℚ
  provenance : Provenance
deriving DecidableEq, Repr

/-- Modelled from the spec: the static local corpus backing the fallback
path, every entry tagged `provenance=mock`.  Contents follow the mock
examples in the repository documentation. -/
def mockCorpus : List ResearchCase :=
  [ ⟨"[2020] 1 MLJ 123", "ABC Sdn Bhd v XYZ Sdn Bhd", "Federal Court", 2020, true,
      95/100, Provenance.mock⟩,
    ⟨"[2019] 2 MLJ 456", "DEF Holdings v GHI Trading", "Court of Appeal", 2019, true,
      88/100, Provenance.mock⟩,
    ⟨"[2021] 3 MLJ 789", "JKL Enterprise v MNO Corp", "High Court", 2021, false,
      80/100, Provenance.mock⟩ ]

/-- Word-overlap match between a free-text query and a corpus case. -/
def caseMatches (query : String) (c : ResearchCase) : Bool :=
  (query.splitOn " ").any (fun w => (c.title.splitOn " ").contains w)

/-- Modelled from the spec: the terminal fallback — filter the static
corpus by the query; when the filter would drop everything, return the
whole corpus, so the fallback result set is never empty. -/
def mockSearch (query : String) : List ResearchCase :=
  let filtered := mockCorpus.filter (caseMatches query)
  if filtered.isEmpty then mockCorpus else filtered

/-- Modelled from the spec: bounded retry — try the external source at
most `n` times (the stage uses `n = 3`), answering the first success and
an error once every attempt has failed.  The attempt index stands for one
backoff-delayed call. -/
def attemptSearch (attempt : Nat → Except String (List ResearchCase)) :
    Nat → Except String (List ResearchCase)
  | 0 => Except.error "retries exhausted"
  | n + 1 =>
    match attempt n with
    | Except.ok rs => Except.ok rs
    | Except.error _ => attemptSearch attempt n

/-- Modelled from the spec: the research stage — when the live source is
enabled, retry it up to 3 times and tag successes `provenance=live`; on
exhausted retries, or when the live source is disabled by configuration,
fall back to the static corpus.  The stage returns a plain list: the
fallback path cannot raise. -/
def researchStage (useLive : Bool) (attempt : Nat → Except String (List ResearchCase))
    (query : String) : List ResearchCase :=
  if useLive then
    match attemptSearch attempt 3 with
    | Except.ok rs => rs.map (fun c => { c with provenance := Provenance.live })
    | Except.error _ => mockSearch query
  else mockSearch query

/-! ## Backend consistency QA (spec-modelled)

The Consistency QA agent is not part of this tree; it is modelled from
§3 (ConsistencyReport) and §4.6 of the specification. -/

/-- Severity of a consistency check: high for factual discrepancies
(dates, sums), low for stylistic ones. -/
inductive CheckSeverity
  | high
  | low
deriving DecidableEq, Repr

/-- One named consistency check with its outcome. -/
structure ConsistencyCheck where
  check_name : String
  severity : CheckSeverity
  passed : Bool
  detail : String
deriving DecidableEq, Repr

/-- Modelled from the spec: `block_for_human` is derived from the check
list — true iff some check with severity high fails. -/
def block_for_human (checks : List ConsistencyCheck) : Bool :=
  checks.any (fun c => c.severity == CheckSeverity.high && !c.passed)

/-- Modelled from the spec: a ConsistencyReport is the ordered check list
together with the derived human gate. -/
structure ConsistencyReport where
  checks : List ConsistencyCheck
  gate : Bool

/-- Modelled from the spec: build the report from the check list,
deriving the gate. -/
def mkConsistencyReport (checks : List ConsistencyCheck) : ConsistencyReport :=
  { checks := checks, gate := block_for_human checks }

/-! ## Backend risk scoring stage (spec-modelled)

The risk scoring agent is not part of this tree; it is modelled from §3
(RiskScore) and §4.5 of the specification and the `risk_scores` output
shape in the repository workflow documentation. -/

/-- Rounding to two decimal places. -/
def round2 (q : ℚ) : ℚ :=
  ((round (q * 100) : ℤ) : ℚ) / 100

/-- Modelled from the spec: composite score = arithmetic mean of the four
sub-scores, rounded to two decimals. -/
def composite_score (j l v t : ℚ) : ℚ :=
  round2 ((j + l + v + t) / 4)

/-- Discrete risk level. -/
inductive RiskLevel
  | LOW
  | MEDIUM
  | HIGH
deriving DecidableEq, Repr

/-- Modelled from the spec: risk level from fixed thresholds on the
composite — LOW if composite < 2, MEDIUM if < 4, else HIGH. -/
def risk_level (composite : ℚ) : RiskLevel :=
  if composite < 2 then RiskLevel.LOW
  else if composite < 4 then RiskLevel.MEDIUM
  else RiskLevel.HIGH

/-! ## Backend OCR / translation stages (spec-modelled)

The OCR-and-language agent and the translation agent are not part of
this tree; they are modelled from §4.2, §4.3 and §3 (Segment,
ParallelText) of the specification. -/

/-- Text segment produced by the OCR and language-detection stage. -/
structure Segment where
  doc_id : String
  page : Nat
  sequence : Nat
  text : String
  language : String
  lang_confidence : ℚ
  ocr_confidence : ℚ
deriving DecidableEq, Repr

/-- Modelled from the spec: minimum segment length below which a
language-detection result is not trusted; the specification scenario
fixes 3-character segments as below the minimum. -/
def minSegmentLength : Nat := 4

/-- Modelled from the spec: the low confidence forced onto segments
shorter than the minimum length — any fixed value below the 0.7 review
threshold. -/
def forcedLowConfidence : ℚ := 1/2

/-- Modelled from the spec: language-detection confidence of a segment —
the detector confidence, except that segments shorter than the minimum
length get their confidence forced low. -/
def detectedConfidence (text : String) (rawConfidence : ℚ) : ℚ :=
  if text.length < minSegmentLength then forcedLowConfidence else rawConfidence

/-- Modelled from the spec: segment constructor of the OCR stage,
applying the short-segment confidence clamp. -/
def mkSegment (doc : String) (page seq : Nat) (text language : String)
    (rawConfidence ocrConfidence : ℚ) : Segment :=
  { doc_id := doc, page := page, sequence := seq, text := text,
    language := language,
    lang_confidence := detectedConfidence text rawConfidence,
    ocr_confidence := ocrConfidence }

/-- Translation pair produced by the translation stage for one segment. -/
structure ParallelText where
  source : Segment
  source_lang : String
  literal : String
  idiomatic : String
  alignment_score : ℚ
  human_review_required : Bool
deriving DecidableEq, Repr

/-- Fixed low-confidence threshold of the translation stage. -/
def reviewThreshold : ℚ := 7/10

/-- Modelled from the spec: translate one segment.  The opaque
text-generation capability `tr` yields the literal translation, the
idiomatic translation and the alignment score; `human_review_required`
is true when the alignment score or the source language-confidence is
below the threshold. -/
def translateSegment (tr : Segment → String × String × ℚ) (seg : Segment) :
    ParallelText :=
  { source := seg, source_lang := seg.language,
    literal := (tr seg).1, idiomatic := (tr seg).2.1,
    alignment_score := (tr seg).2.2,
    human_review_required :=
      decide ((tr seg).2.2 < reviewThreshold) ||
      decide (seg.lang_confidence < reviewThreshold) }

/-- Modelled from the spec: the translation stage maps each input segment
to one ParallelText, in input order. -/
def translationStage (tr : Segment → String × String × ℚ) :
    List Segment → List ParallelText
  | [] => []
  | seg :: rest => translateSegment tr seg :: translationStage tr rest

/-! ## Backend drafting stage paragraph map (spec-modelled)

The Malay drafting agent is not part of this tree; its paragraph map is
modelled from §3 (PleadingDraft), §4.6 and the `paragraph_map` output
shape in the repository workflow documentation. -/

/-- Modelled from the spec: number a list of generated paragraphs
consecutively starting at `n`, pairing each paragraph number with its
source text. -/
def paragraphMap : Nat → List String → List (Nat × String)
  | _, [] => []
  | n, p :: rest => (n, p) :: paragraphMap (n + 1) rest

/-- Pleading draft produced by the drafting agent: the draft text plus
the paragraph map (paragraph number → source text). -/
structure DraftedPleading where
  text : String
  paragraph_map : List (Nat × String)

/-- Modelled from the spec: the drafting agent numbers paragraphs and
builds the paragraph map as a byproduct of generation — the draft text is
the concatenation of the generated paragraphs and the map numbers those
same paragraphs from 1. -/
def mkDraftedPleading (paragraphs : List String) : DraftedPleading :=
  { text := String.join paragraphs, paragraph_map := paragraphMap 1 paragraphs }

/-- Reconstruct a draft from a paragraph map: take the entries in
ascending paragraph-number order (1, 2, …) and concatenate their texts. -/
def reconstructText (m : List (Nat × String)) : String :=
  String.join ((List.range m.length).map (fun i => ((m.lookup (i + 1)).getD "")))

/-! ## Theorems -/

/-- Claim C1, counterexample: as stated (MEDIUM whenever the composite is
at least 2 and less than 4) the claim is false for the risk level actually
derived in MatterCard.tsx — at composite 2.5 the code yields the low
label, not the medium one. -/
theorem C1_counterexample :
    ¬ (∀ c : ℚ, 2 ≤ c → c < 4 → getRiskLabel c = "Medium Risk") := by
  intro h
  have h2 : getRiskLabel (5/2) = "Medium Risk" := h (5/2) (by norm_num) (by norm_num)
  have h3 : getRiskLabel (5/2) = "Low Risk" := by norm_num [getRiskLabel]
  rw [h3] at h2
  exact absurd h2 (by decide)

/-- Claim C1 (amended): for every composite score, the risk level derived
by `getRiskLabel` is Low when the composite is less than 3, Medium when it
is at least 3 and less than 4, and High when it is at least 4. -/
theorem C1_risk_label_thresholds (c : ℚ) :
    (c < 3 → getRiskLabel c = "Low Risk") ∧
    (3 ≤ c → c < 4 → getRiskLabel c = "Medium Risk") ∧
    (4 ≤ c → getRiskLabel c = "High Risk") := by
  refine ⟨fun h => ?_, fun h3 h4 => ?_, fun h => ?_⟩
  · simp only [getRiskLabel]
    rw [if_neg (by intro hc; exact absurd (le_trans (by norm_num) hc) (not_le.mpr h)),
        if_neg (not_le.mpr h)]
  · simp only [getRiskLabel]
    rw [if_neg (not_le.mpr h4), if_pos h3]
  · simp only [getRiskLabel]
    rw [if_pos h]

/-- Witness for C1: the amended thresholds evaluated at 1, 3 and 4. -/
theorem C1_risk_label_thresholds_witness :
    getRiskLabel 1 = "Low Risk" ∧ getRiskLabel 3 = "Medium Risk" ∧
      getRiskLabel 4 = "High Risk" :=
  ⟨(C1_risk_label_thresholds 1).1 (by norm_num),
   (C1_risk_label_thresholds 3).2.1 (by norm_num) (by norm_num),
   (C1_risk_label_thresholds 4).2.2 (by norm_num)⟩

/-- Claim C4: `block_for_human` is true iff at least one high-severity
check fails; in particular, when all checks pass it is false. -/
theorem C4_block_for_human_iff (checks : List ConsistencyCheck) :
    (block_for_human checks = true ↔
      ∃ c ∈ checks, c.severity = CheckSeverity.high ∧ c.passed = false) ∧
    ((∀ c ∈ checks, c.passed = true) → block_for_human checks = false) := by
  have hiff : block_for_human checks = true ↔
      ∃ c ∈ checks, c.severity = CheckSeverity.high ∧ c.passed = false := by
    simp [block_for_human, List.any_eq_true, Bool.and_eq_true, beq_iff_eq,
      Bool.not_eq_true']
  refine ⟨hiff, fun hall => ?_⟩
  cases hb : block_for_human checks with
  | false => rfl
  | true =>
    obtain ⟨c, hc, _, hfail⟩ := hiff.mp hb
    simp [hall c hc] at hfail

/-- Witness for C4: a report whose single high-severity check passes does
not block for human review. -/
theorem C4_block_for_human_iff_witness :
    block_for_human [⟨"dates", CheckSeverity.high, true, "All dates match"⟩] = false :=
  (C4_block_for_human_iff _).2 (by
    intro c hc
    rw [List.mem_singleton] at hc
    subst hc
    rfl)

/-- Claim C5: for sub-scores in [1,5] the composite score is the
arithmetic mean rounded to two decimals and lies in [1,5]; sub-scores
(1,1,1,1) give composite 1 with level LOW and (5,5,5,5) give composite 5
with level HIGH. -/
theorem C5_composite_score_bounds (j l v t : ℚ)
    (hj1 : 1 ≤ j) (hj5 : j ≤ 5) (hl1 : 1 ≤ l) (hl5 : l ≤ 5)
    (hv1 : 1 ≤ v) (hv5 : v ≤ 5) (ht1 : 1 ≤ t) (ht5 : t ≤ 5) :
    (composite_score j l v t = round2 ((j + l + v + t) / 4) ∧
      1 ≤ composite_score j l v t ∧ composite_score j l v t ≤ 5) ∧
    (composite_score 1 1 1 1 = 1 ∧
      risk_level (composite_score 1 1 1 1) = RiskLevel.LOW) ∧
    (composite_score 5 5 5 5 = 5 ∧
      risk_level (composite_score 5 5 5 5) = RiskLevel.HIGH) := by
  have hlow : (100 : ℤ) ≤ round ((j + l + v + t) / 4 * 100) := by
    rw [round_eq, Int.le_floor]
    push_cast
    linarith
  have hhigh : round ((j + l + v + t) / 4 * 100) ≤ (500 : ℤ) := by
    rw [round_eq, ← Int.lt_add_one_iff, Int.floor_lt]
    push_cast
    linarith
  have e1 : composite_score 1 1 1 1 = 1 := by norm_num [composite_score, round2]
  have e5 : composite_score 5 5 5 5 = 5 := by norm_num [composite_score, round2]
  refine ⟨⟨rfl, ?_, ?_⟩, ⟨e1, ?_⟩, ⟨e5, ?_⟩⟩
  · unfold composite_score round2
    rw [le_div_iff₀ (by norm_num : (0:ℚ) < 100)]
    exact_mod_cast hlow
  · unfold composite_score round2
    rw [div_le_iff₀ (by norm_num : (0:ℚ) < 100)]
    exact_mod_cast hhigh
  · rw [e1]
    norm_num [risk_level]
  · rw [e5]
    norm_num [risk_level]

/-- Witness for C5: the bounds and scenario values instantiated at
sub-scores (2,3,4,5). -/
theorem C5_composite_score_bounds_witness :
    1 ≤ composite_score 2 3 4 5 ∧ composite_score 2 3 4 5 ≤ 5 ∧
      composite_score 1 1 1 1 = 1 ∧ composite_score 5 5 5 5 = 5 := by
  have h := C5_composite_score_bounds 2 3 4 5 (by norm_num) (by norm_num) (by norm_num)
    (by norm_num) (by norm_num) (by norm_num) (by norm_num) (by norm_num)
  exact ⟨h.1.2.1, h.1.2.2, h.2.1.1, h.2.2.1⟩

/-- Claim C9: the drafting page renders the QA Validation Passed banner
whenever a qa_report is present, independently of `block_for_human` — a
blocking report renders exactly like a passing one. -/
theorem C9_qa_banner_ignores_block (r : DraftingWorkflowResult) (rep : QAReport)
    (h : r.qa_report = some rep) :
    rendersQAPassedBanner (some r) = true ∧
    rendersQAPassedBanner
        (some { r with qa_report := some { rep with block_for_human := true } }) =
      rendersQAPassedBanner
        (some { r with qa_report := some { rep with block_for_human := false } }) := by
  constructor
  · simp [rendersQAPassedBanner, h]
  · rfl

/-- Witness for C9: a workflow result whose qa_report blocks for human
review still renders the passed banner. -/
theorem C9_qa_banner_ignores_block_witness :
    rendersQAPassedBanner
      (some ⟨none, none, some ⟨true, ["date mismatch in paragraph 3"]⟩⟩) = true :=
  (C9_qa_banner_ignores_block ⟨none, none, some ⟨true, ["date mismatch in paragraph 3"]⟩⟩
    ⟨true, ["date mismatch in paragraph 3"]⟩ rfl).1

/-- Claim C10: a viewer segment without a lang_confidence value gets the
default confidence 1, so it passes every minimum-confidence filter up to
1 (the 0.9 filter included) and is rendered in the high-confidence
style. -/
theorem C10_missing_confidence_defaults_high (seg : ViewerSegment)
    (h : seg.lang_confidence = none) :
    effectiveLangConfidence seg = 1 ∧
    (∀ f : ℚ, f ≤ 1 → passesConfidenceFilter seg f = true) ∧
    getConfidenceColor (effectiveLangConfidence seg) = "text-green-600" ∧
    segmentBgColor (effectiveLangConfidence seg) = "bg-green-50 border-green-200" := by
  have he : effectiveLangConfidence seg = 1 := by
    simp [effectiveLangConfidence, jsOrDefault, h]
  refine ⟨he, fun f hf => ?_, ?_, ?_⟩
  · simpa [passesConfidenceFilter, he] using hf
  · rw [he]
    norm_num [getConfidenceColor]
  · rw [he]
    norm_num [segmentBgColor]

/-- Witness for C10: a concrete segment with no lang_confidence passes
the 90% filter and gets the green style. -/
theorem C10_missing_confidence_defaults_high_witness :
    passesConfidenceFilter ⟨"SEG-001", "DOC-001", 1, 0, "teks", "ms", none, none, false⟩
        (9/10) = true ∧
    getConfidenceColor (effectiveLangConfidence
        ⟨"SEG-001", "DOC-001", 1, 0, "teks", "ms", none, none, false⟩) = "text-green-600" := by
  have h := C10_missing_confidence_defaults_high
    ⟨"SEG-001", "DOC-001", 1, 0, "teks", "ms", none, none, false⟩ rfl
  exact ⟨h.2.1 (9/10) (by norm_num), h.2.2.1⟩

/-- Unfolding lemma: one successful stage appends a completed StageResult
and threads the new payload. -/
lemma runStages_cons_ok {σ : Type} (nm : String) (f : σ → Except String σ)
    (rest : List (Stage σ)) (st : WorkflowState σ) (d : σ)
    (hf : f st.data = Except.ok d) :
    runStages ((⟨nm, f⟩ : Stage σ) :: rest) st =
      runStages rest { st with data := d, stage_results := st.stage_results ++ [⟨nm, StageStat.completed⟩] } := by
  simp only [runStages, hf]

/-- Unfolding lemma: an unrecoverable stage error appends a failed
StageResult, marks the run failed, records the error and stops. -/
lemma runStages_cons_error {σ : Type} (nm : String) (f : σ → Except String σ)
    (rest : List (Stage σ)) (st : WorkflowState σ) (e : String)
    (hf : f st.data = Except.error e) :
    runStages ((⟨nm, f⟩ : Stage σ) :: rest) st =
      { st with stage_results := st.stage_results ++ [⟨nm, StageStat.failed⟩],
                status := WorkflowStatus.failed, error := some e } := by
  simp only [runStages, hf]

/-- Running a list of succeeding stages followed by anything accumulates
one completed StageResult per stage and threads the accumulated payload. -/
lemma runStages_ok_front {σ : Type} (pre rest : List (Stage σ)) (st : WorkflowState σ)
    (h : stagesSucceed pre st.data = true) :
    runStages (pre ++ rest) st =
      runStages rest
        { st with data := applyStages pre st.data,
                  stage_results := st.stage_results ++
                    pre.map (fun s => ⟨s.1, StageStat.completed⟩) } := by
  induction pre generalizing st with
  | nil =>
    simp [applyStages]
  | cons s pre ih =>
    obtain ⟨nm, f⟩ := s
    cases hf : f st.data with
    | ok d =>
      have h2 : stagesSucceed pre d = true := by
        simpa [stagesSucceed, hf] using h
      have key := ih ({ st with data := d, stage_results := st.stage_results ++ [⟨nm, StageStat.completed⟩] }) h2
      rw [List.cons_append, runStages_cons_ok nm f (pre ++ rest) st d hf, key]
      simp [applyStages, hf, List.append_assoc]
    | error e =>
      exfalso
      simp [stagesSucceed, hf] at h

/-- Claim C2: when the stages before `nm` all succeed and stage `nm`
raises an unrecoverable error, the returned WorkflowState has status
failed with the error populated, carries exactly one StageResult per
stage up to and including the failed one, and no StageResult for any
later stage — the accumulated state is returned, not discarded. -/
theorem C2_run_halts_on_stage_failure {σ : Type} (pre post : List (Stage σ)) (nm : String)
    (f : σ → Except String σ) (wid mid : String) (input : σ) (e : String)
    (res : WorkflowState σ)
    (hres : res = run (pre ++ (⟨nm, f⟩ : Stage σ) :: post) wid mid input)
    (hpre : stagesSucceed pre input = true)
    (hfail : f (applyStages pre input) = Except.error e) :
    res.status = WorkflowStatus.failed ∧
    res.error = some e ∧
    res.stage_results =
      pre.map (fun s => StageResult.mk s.1 StageStat.completed) ++
        [StageResult.mk nm StageStat.failed] ∧
    (∀ s ∈ post, s.1 ≠ nm → (∀ p ∈ pre, s.1 ≠ p.1) →
      ∀ r ∈ res.stage_results, r.stage_name ≠ s.1) := by
  subst hres
  unfold run
  rw [runStages_ok_front pre _ _ hpre]
  rw [runStages_cons_error nm f post _ e hfail]
  refine ⟨rfl, rfl, by simp, ?_⟩
  intro s hs hne hnpre r hr
  simp only [List.nil_append, List.mem_append, List.mem_map, List.mem_singleton] at hr
  rcases hr with ⟨p, hp, hpr⟩ | hr
  · rw [← hpr]
    exact fun hc => hnpre p hp hc.symm
  · rw [hr]
    exact fun hc => hne hc.symm

/-- Witness for C2: a concrete intake pipeline whose structuring stage
raises — the run is failed, the error is recorded, and the stage results
stop at the failed stage. -/
theorem C2_run_halts_on_stage_failure_witness :
    (run ([(⟨"document_collection", fun n => Except.ok (n + 1)⟩ : Stage Nat),
            ⟨"ocr_language", fun n => Except.ok (n * 2)⟩] ++
          (⟨"case_structuring", fun _ => Except.error "generation unavailable"⟩ : Stage Nat) ::
            [⟨"risk_scoring", fun n => Except.ok n⟩]) "WF-1" "MAT-1" 0).status =
        WorkflowStatus.failed ∧
    (run ([(⟨"document_collection", fun n => Except.ok (n + 1)⟩ : Stage Nat),
            ⟨"ocr_language", fun n => Except.ok (n * 2)⟩] ++
          (⟨"case_structuring", fun _ => Except.error "generation unavailable"⟩ : Stage Nat) ::
            [⟨"risk_scoring", fun n => Except.ok n⟩]) "WF-1" "MAT-1" 0).error =
        some "generation unavailable" ∧
    (run ([(⟨"document_collection", fun n => Except.ok (n + 1)⟩ : Stage Nat),
            ⟨"ocr_language", fun n => Except.ok (n * 2)⟩] ++
          (⟨"case_structuring", fun _ => Except.error "generation unavailable"⟩ : Stage Nat) ::
            [⟨"risk_scoring", fun n => Except.ok n⟩]) "WF-1" "MAT-1" 0).stage_results =
        [⟨"document_collection", StageStat.completed⟩, ⟨"ocr_language", StageStat.completed⟩,
          ⟨"case_structuring", StageStat.failed⟩] := by
  have h := C2_run_halts_on_stage_failure
    [(⟨"document_collection", fun n => Except.ok (n + 1)⟩ : Stage Nat),
      ⟨"ocr_language", fun n => Except.ok (n * 2)⟩]
    [⟨"risk_scoring", fun n => Except.ok n⟩]
    "case_structuring" (fun _ => Except.error "generation unavailable")
    "WF-1" "MAT-1" 0 "generation unavailable" _ rfl rfl rfl
  exact ⟨h.1, h.2.1, h.2.2.1⟩

/-- Every entry of the static corpus is tagged mock. -/
lemma mockCorpus_provenance : ∀ c ∈ mockCorpus, c.provenance = Provenance.mock := by
  intro c hc
  fin_cases hc <;> rfl

/-- The fallback search never returns an empty result set. -/
lemma mockSearch_ne_nil (q : String) : mockSearch q ≠ [] := by
  unfold mockSearch
  by_cases hf : (mockCorpus.filter (caseMatches q)).isEmpty
  · simp only [hf, if_true]
    simp [mockCorpus]
  · simp only [hf, if_false]
    simpa [List.isEmpty_iff] using hf

/-- Every fallback search result is tagged mock. -/
lemma mockSearch_provenance (q : String) :
    ∀ c ∈ mockSearch q, c.provenance = Provenance.mock := by
  intro c hc
  apply mockCorpus_provenance
  unfold mockSearch at hc
  by_cases hf : (mockCorpus.filter (caseMatches q)).isEmpty
  · simpa only [hf, if_true] using hc
  · rw [if_neg hf] at hc
    exact (List.mem_filter.mp hc).1

/-- When every attempt fails, the bounded retry reports an error. -/
lemma attemptSearch_error (attempt : Nat → Except String (List ResearchCase)) (n : Nat)
    (h : ∀ i < n, ∃ e, attempt i = Except.error e) :
    ∃ e, attemptSearch attempt n = Except.error e := by
  induction n with
  | zero => exact ⟨"retries exhausted", rfl⟩
  | succ n ih =>
    obtain ⟨e, he⟩ := h n (Nat.lt_succ_self n)
    obtain ⟨e2, he2⟩ := ih (fun i hi => h i (Nat.lt_succ_of_lt hi))
    exact ⟨e2, by simp [attemptSearch, he, he2]⟩

/-- Claim C3: when every external attempt fails (3 attempts) or the live
source is disabled by configuration, the research stage returns a
non-empty result set in which every case is tagged mock; the stage is a
total function, so this fallback path cannot raise. -/
theorem C3_research_fallback (useLive : Bool)
    (attempt : Nat → Except String (List ResearchCase)) (query : String)
    (h : useLive = false ∨ ∀ i < 3, ∃ e, attempt i = Except.error e) :
    researchStage useLive attempt query ≠ [] ∧
    ∀ c ∈ researchStage useLive attempt query, c.provenance = Provenance.mock := by
  have hm : researchStage useLive attempt query = mockSearch query := by
    rcases h with hfalse | hall
    · simp [researchStage, hfalse]
    · obtain ⟨e, he⟩ := attemptSearch_error attempt 3 hall
      cases useLive
      · simp [researchStage]
      · simp [researchStage, he]
  rw [hm]
  exact ⟨mockSearch_ne_nil query, mockSearch_provenance query⟩

/-- Witness for C3: with the live source enabled and an attempt function
that always fails, the stage still yields a non-empty all-mock result. -/
theorem C3_research_fallback_witness :
    researchStage true (fun _ => Except.error "network timeout") "breach of contract" ≠ [] ∧
    ∀ c ∈ researchStage true (fun _ => Except.error "network timeout") "breach of contract",
      c.provenance = Provenance.mock :=
  C3_research_fallback true (fun _ => Except.error "network timeout") "breach of contract"
    (Or.inr (fun _ _ => ⟨"network timeout", rfl⟩))

/-- Claim C6: `human_review_required` holds exactly when the alignment
score is below 0.7 or the source language-confidence is below 0.7, and a
3-character segment such as "ya." is always flagged, whatever translation
the capability returns. -/
theorem C6_human_review_conditions (tr : Segment → String × String × ℚ) (seg : Segment) :
    ((translateSegment tr seg).human_review_required = true ↔
      (translateSegment tr seg).alignment_score < reviewThreshold ∨
        seg.lang_confidence < reviewThreshold) ∧
    (∀ doc page seq language rawConf ocrConf,
      (translateSegment tr
        (mkSegment doc page seq "ya." language rawConf ocrConf)).human_review_required
          = true) := by
  constructor
  · simp [translateSegment, Bool.or_eq_true, decide_eq_true_iff]
  · intro doc page seq language rawConf ocrConf
    have hconf : (mkSegment doc page seq "ya." language rawConf ocrConf).lang_confidence
        = forcedLowConfidence := by
      simp only [mkSegment, detectedConfidence]
      rw [if_pos (by decide)]
    simp only [translateSegment, hconf, Bool.or_eq_true, decide_eq_true_iff]
    right
    norm_num [forcedLowConfidence, reviewThreshold]

/-- Witness for C6: a perfectly aligned translation of the segment "ya."
is still flagged for human review. -/
theorem C6_human_review_conditions_witness :
    (translateSegment (fun _ => ("yes.", "yes.", 1))
        (mkSegment "DOC-1" 1 0 "ya." "ms" (99/100) (9/10))).human_review_required = true :=
  (C6_human_review_conditions (fun _ => ("yes.", "yes.", 1))
      (mkSegment "DOC-1" 1 0 "ya." "ms" (99/100) (9/10))).2 "DOC-1" 1 0 "ms" (99/100) (9/10)

/-- Claim C7: the translation stage yields exactly one ParallelText per
input segment and preserves order — the output at every position is the
translation of the input at that position. -/
theorem C7_translation_length_order (tr : Segment → String × String × ℚ)
    (segs : List Segment) :
    (translationStage tr segs).length = segs.length ∧
    ∀ i : Nat, (translationStage tr segs)[i]? = (segs[i]?).map (translateSegment tr) := by
  induction segs with
  | nil => exact ⟨rfl, fun i => by simp [translationStage]⟩
  | cons s rest ih =>
    refine ⟨by simp [translationStage, ih.1], fun i => ?_⟩
    cases i with
    | zero => simp [translationStage]
    | succ n => simpa [translationStage] using ih.2 n

/-- Witness for C7: a two-segment input yields a two-element output whose
second element is the translation of the second input segment. -/
theorem C7_translation_length_order_witness :
    (translationStage (fun _ => ("lit", "idio", 92/100))
        [mkSegment "DOC-1" 1 0 "PLAINTIF ialah sebuah syarikat" "ms" (95/100) (9/10),
         mkSegment "DOC-1" 1 1 "ya." "ms" (95/100) (9/10)]).length = 2 ∧
    (translationStage (fun _ => ("lit", "idio", 92/100))
        [mkSegment "DOC-1" 1 0 "PLAINTIF ialah sebuah syarikat" "ms" (95/100) (9/10),
         mkSegment "DOC-1" 1 1 "ya." "ms" (95/100) (9/10)])[1]? =
      some (translateSegment (fun _ => ("lit", "idio", 92/100))
        (mkSegment "DOC-1" 1 1 "ya." "ms" (95/100) (9/10))) := by
  have h := C7_translation_length_order (fun _ => ("lit", "idio", 92/100))
    [mkSegment "DOC-1" 1 0 "PLAINTIF ialah sebuah syarikat" "ms" (95/100) (9/10),
     mkSegment "DOC-1" 1 1 "ya." "ms" (95/100) (9/10)]
  exact ⟨h.1, h.2 1⟩

/-- The paragraph map has one entry per paragraph. -/
lemma paragraphMap_length (paras : List String) :
    ∀ n, (paragraphMap n paras).length = paras.length := by
  induction paras with
  | nil => intro n; rfl
  | cons p rest ih => intro n; simp [paragraphMap, ih]

/-- Looking up paragraph number `n + i` in a map numbered from `n`
returns the paragraph at position `i`. -/
lemma paragraphMap_lookup (paras : List String) :
    ∀ n i (h : i < paras.length),
      (paragraphMap n paras).lookup (n + i) = some (paras.get ⟨i, h⟩) := by
  induction paras with
  | nil => intro n i h; exact absurd h (Nat.not_lt_zero i)
  | cons p rest ih =>
    intro n i h
    cases i with
    | zero =>
      simp [paragraphMap, List.lookup]
    | succ j =>
      have hne : ((n + (j + 1) : Nat) == n) = false := by
        simp only [beq_eq_false_iff_ne]
        omega
      have hrw : n + (j + 1) = (n + 1) + j := by omega
      simp only [paragraphMap, List.lookup, hne]
      rw [hrw, ih (n + 1) j (Nat.lt_of_succ_lt_succ h)]
      rfl

/-- Claim C8: reconstructing a drafted pleading from its paragraph map —
taking the entries in ascending paragraph-number order and concatenating
their texts — reproduces the draft text exactly. -/
theorem C8_paragraph_map_roundtrip (paragraphs : List String) :
    reconstructText (mkDraftedPleading paragraphs).paragraph_map =
      (mkDraftedPleading paragraphs).text := by
  unfold mkDraftedPleading reconstructText
  simp only
  congr 1
  rw [paragraphMap_length paragraphs 1]
  apply List.ext_getElem
  · simp
  · intro i h1 h2
    simp only [List.getElem_map, List.getElem_range]
    have hl := paragraphMap_lookup paragraphs 1 i (by simpa using h2)
    rw [Nat.add_comm] at hl
    rw [hl]
    simp

/-- Witness for C8: the round trip on a concrete three-paragraph draft. -/
theorem C8_paragraph_map_roundtrip_witness :
    reconstructText (mkDraftedPleading
        ["1. PLAINTIF ialah sebuah syarikat. ", "2. DEFENDAN ialah sebuah syarikat. ",
         "3. Pada 15 Januari 2024 Perjanjian dibuat."]).paragraph_map =
      (mkDraftedPleading
        ["1. PLAINTIF ialah sebuah syarikat. ", "2. DEFENDAN ialah sebuah syarikat. ",
         "3. Pada 15 Januari 2024 Perjanjian dibuat."]).text :=
  C8_paragraph_map_roundtrip
    ["1. PLAINTIF ialah sebuah syarikat. ", "2. DEFENDAN ialah sebuah syarikat. ",
     "3. Pada 15 Januari 2024 Perjanjian dibuat."]

end LegalOps
